import Mathlib

/-!
Verification of the `stimer` soft-timer library (`src/stimer/stimer.c`).

The C code is shallowly embedded: each C struct becomes a Lean structure,
`uint32_t` fields are `Nat` values kept below `2 ^ 32` with wrapping
arithmetic made explicit (`add32` / `sub32`), NULL pointers become
`Option`, and every public function that samples the context's
`get_time_fn` takes the sampled raw counter value `now` as an explicit
argument (one sample per C call, matching the call sites).

The counter-math primitive (`tm_get_diff` from the separate `timermath`
library) is not part of this repository's sources; it is modelled from the
specification's contract for the counter-difference operation.
-/

-- ---------------------------------------------------------------------------
-- 32-bit machine arithmetic on Nat

/-- `2 ^ 32`, the number of values of a `uint32_t`. -/
def u32 : Nat := 4294967296

/-- Wrapping `uint32_t` addition. -/
def add32 (a b : Nat) : Nat := (a + b) % u32

/-- Wrapping `uint32_t` subtraction (two's complement: `a - b` mod `2 ^ 32`). -/
def sub32 (a b : Nat) : Nat := (a + u32 - b % u32) % u32

-- ---------------------------------------------------------------------------
-- Data model

/-- `struct stimer_duration`: `{ uint32_t seconds; uint32_t nanoseconds; }`. -/
structure stimer_duration where
  seconds : Nat
  nanoseconds : Nat
deriving DecidableEq, Repr

/-- Total nanosecond value represented by a duration (specification view:
seconds whole part plus nanoseconds fraction). -/
def toNs (d : stimer_duration) : Nat := d.seconds * 1000000000 + d.nanoseconds

/-- The counter-math configuration a `struct stimer_ctx` carries: the
`tm_math` modulus (`max_time`) and `ns_per_count`.  The context's
`get_time_fn`/`hint` pair is replaced by passing each sampled value
explicitly. -/
structure stimer_ctx where
  modulus : Nat
  ns_per_count : Nat
deriving DecidableEq, Repr

/-- Modelled from the spec: the counter-difference primitive of the external
`timermath` collaborator (`tm_get_diff`), whose source is not in this
repository.  Per the contract, samples live in the ring `[0, modulus]`;
for `previous ≤ current` the forward distance is `current - previous`, and
for `current < previous` the counter wrapped once, giving
`(modulus + 1 - previous) + current`. -/
def tm_get_diff (modulus current previous : Nat) : Int :=
  if previous ≤ current then (current : Int) - (previous : Int)
  else ((modulus : Int) + 1 - (previous : Int)) + (current : Int)

/-- `struct stimer`: the per-timer state.  The `ctx` back-pointer becomes an
`Option stimer_ctx` (`none` = detached / NULL); the intrusive `next` link is
represented by the context's timer list instead of a field. -/
structure stimer where
  ctx : Option stimer_ctx
  checkpoint : Nat
  expire_interval : stimer_duration
  elapsed : stimer_duration
  is_running : Bool
deriving DecidableEq, Repr

/-- The heap state behind a live `struct stimer_ctx`: its counter-math
configuration and the linked list of registered timers (`root`, in
insertion-reversed order as `link_timer` prepends). -/
structure stimer_ctx_state where
  cfg : stimer_ctx
  timers : List stimer
deriving DecidableEq, Repr

-- ---------------------------------------------------------------------------
-- Private functions (stimer.c lines 115-182)

/-- `advance_timer_duration` (stimer.c lines 115-127): add `ns_advance`
nanoseconds to a duration via the headroom computation. -/
def advance_timer_duration (td : stimer_duration) (ns_advance : Nat) : stimer_duration :=
  let headroom := sub32 1000000000 td.nanoseconds
  if ns_advance < headroom then
    { td with nanoseconds := add32 td.nanoseconds ns_advance }
  else
    { seconds := add32 td.seconds 1, nanoseconds := sub32 ns_advance headroom }

/-- `advance_and_checkpoint` (stimer.c lines 130-141).  In C the scale factor
is read through `ts->ctx->ns_per_count`; at every call site the `tm` argument
and `ts->ctx` belong to the same context, so both the modulus and
`ns_per_count` are passed here explicitly.  The `int32_t` product
`diff * ns_per_count` is truncated to `uint32_t`. -/
def advance_and_checkpoint (ts : stimer) (modulus ns_per_count now : Nat) : stimer :=
  if ts.is_running then
    let diff := tm_get_diff modulus now ts.checkpoint
    if 0 < diff then
      let ns_advance := diff.toNat * ns_per_count % u32
      { ts with elapsed := advance_timer_duration ts.elapsed ns_advance, checkpoint := now }
    else ts
  else ts

/-- `advance_and_checkpoint_2` (stimer.c lines 144-152): guard on a present
context, sample the time function (the sample is the `now` argument), and
advance. -/
def advance_and_checkpoint_2 (ts : stimer) (now : Nat) : stimer :=
  match ts.ctx with
  | none => ts
  | some c => advance_and_checkpoint ts c.modulus c.ns_per_count now

/-- `start_and_checkpoint_timer` (stimer.c lines 157-167). -/
def start_and_checkpoint_timer (ts : stimer) (now : Nat) : stimer :=
  match ts.ctx with
  | none => ts
  | some _ =>
    { ts with checkpoint := now, is_running := true, elapsed := ⟨0, 0⟩ }

/-- `timer_duration_ge` (stimer.c lines 170-182): seconds-major,
nanoseconds-minor comparison. -/
def timer_duration_ge (lhs rhs : stimer_duration) : Bool :=
  if rhs.seconds < lhs.seconds then true
  else if lhs.seconds = rhs.seconds then decide (rhs.nanoseconds ≤ lhs.nanoseconds)
  else false

-- ---------------------------------------------------------------------------
-- Public context functions (stimer.c lines 189-235)

/-- `stimer_alloc_context` (stimer.c lines 189-208), successful-allocation
path: fresh context with an empty timer list. -/
def stimer_alloc_context (max_time ns_per_count : Nat) : Option stimer_ctx_state :=
  some { cfg := { modulus := max_time, ns_per_count := ns_per_count }, timers := [] }

/-- `stimer_free_context` (stimer.c lines 211-221): unlink every registered
timer (clearing its context back-pointer) and release the context.  The
result is the list of surviving, now-detached timers; an absent context
leaves nothing touched. -/
def stimer_free_context (ost : Option stimer_ctx_state) : List stimer :=
  match ost with
  | none => []
  | some st => st.timers.map (fun t => { t with ctx := none })

/-- `stimer_execute_context` (stimer.c lines 224-235): sample once, then
advance-and-checkpoint every registered timer with that sample. -/
def stimer_execute_context (ost : Option stimer_ctx_state) (now : Nat) : Option stimer_ctx_state :=
  match ost with
  | none => none
  | some st =>
    some { st with
           timers := st.timers.map
             (fun t => advance_and_checkpoint t st.cfg.modulus st.cfg.ns_per_count now) }

-- ---------------------------------------------------------------------------
-- Public timer lifecycle functions (stimer.c lines 240-275)

/-- `stimer_alloc` (stimer.c lines 240-265), successful-allocation path:
zero-initialized timer linked into the context (prepended, as `link_timer`
does).  Returns the new timer and the updated context. -/
def stimer_alloc (ost : Option stimer_ctx_state) : Option stimer × Option stimer_ctx_state :=
  match ost with
  | none => (none, none)
  | some st =>
    let ts : stimer :=
      { ctx := some st.cfg, checkpoint := 0,
        expire_interval := ⟨0, 0⟩, elapsed := ⟨0, 0⟩, is_running := false }
    (some ts, some { st with timers := ts :: st.timers })

/-- Removal of the first list entry equal to `ts`: value-level model of
`unlink_timer`'s pointer surgery on the context's intrusive list. -/
def unlink_first : List stimer → stimer → List stimer
  | [], _ => []
  | t :: rest, ts => if t = ts then rest else t :: unlink_first rest ts

/-- `stimer_free` (stimer.c lines 268-275): unlink from the owning context
(passed explicitly as the model of the `ts->ctx` heap object) and release the
timer.  A NULL timer, or a timer with no context, touches no list. -/
def stimer_free (ots : Option stimer) (ost : Option stimer_ctx_state) : Option stimer_ctx_state :=
  match ots with
  | none => ost
  | some ts =>
    match ts.ctx, ost with
    | some _, some st => some { st with timers := unlink_first st.timers ts }
    | _, _ => ost

-- ---------------------------------------------------------------------------
-- Public elapsed-timer functions (stimer.c lines 280-317)

/-- `stimer_start` (stimer.c lines 280-286). -/
def stimer_start (ots : Option stimer) (now : Nat) : Option stimer :=
  match ots with
  | none => none
  | some ts => some (start_and_checkpoint_timer ts now)

/-- `stimer_stop` (stimer.c lines 289-301). -/
def stimer_stop (ots : Option stimer) (now : Nat) : Option stimer :=
  match ots with
  | none => none
  | some ts =>
    match ts.ctx with
    | none => some ts
    | some c =>
      if ts.is_running then
        some { advance_and_checkpoint ts c.modulus c.ns_per_count now with is_running := false }
      else some ts

/-- `stimer_get_elapsed_time` (stimer.c lines 304-317): the out-parameter
`t` is written with the (possibly advanced) elapsed duration when the timer
is present, and left untouched otherwise. -/
def stimer_get_elapsed_time (ots : Option stimer) (now : Nat) (t : stimer_duration) :
    Option stimer × stimer_duration :=
  match ots with
  | none => (none, t)
  | some ts =>
    match ts.ctx with
    | some c =>
      if ts.is_running then
        let ts2 := advance_and_checkpoint ts c.modulus c.ns_per_count now
        (some ts2, ts2.elapsed)
      else (some ts, ts.elapsed)
    | none => (some ts, ts.elapsed)

-- ---------------------------------------------------------------------------
-- Public expire-timer functions (stimer.c lines 322-416)

/-- `stimer_expire_from_now` (stimer.c lines 322-329). -/
def stimer_expire_from_now (ots : Option stimer) (ot : Option stimer_duration) (now : Nat) :
    Option stimer :=
  match ots, ot with
  | some ts, some t => some { start_and_checkpoint_timer ts now with expire_interval := t }
  | _, _ => ots

/-- `stimer_expire_from_now_s` (stimer.c lines 332-340). -/
def stimer_expire_from_now_s (ots : Option stimer) (s now : Nat) : Option stimer :=
  match ots with
  | none => none
  | some ts =>
    some { start_and_checkpoint_timer ts now with expire_interval := ⟨s, 0⟩ }

/-- `stimer_expire_from_now_ms` (stimer.c lines 343-351). -/
def stimer_expire_from_now_ms (ots : Option stimer) (ms now : Nat) : Option stimer :=
  match ots with
  | none => none
  | some ts =>
    some { start_and_checkpoint_timer ts now with
           expire_interval := ⟨ms / 1000, ms % 1000 * 1000000⟩ }

/-- `stimer_expire_from_now_us` (stimer.c lines 354-362). -/
def stimer_expire_from_now_us (ots : Option stimer) (us now : Nat) : Option stimer :=
  match ots with
  | none => none
  | some ts =>
    some { start_and_checkpoint_timer ts now with
           expire_interval := ⟨us / 1000000, us % 1000000 * 1000⟩ }

/-- `stimer_expire_from_now_ns` (stimer.c lines 365-373). -/
def stimer_expire_from_now_ns (ots : Option stimer) (n now : Nat) : Option stimer :=
  match ots with
  | none => none
  | some ts =>
    some { start_and_checkpoint_timer ts now with
           expire_interval := ⟨n / 1000000000, n % 1000000000⟩ }

/-- `stimer_is_expired` (stimer.c lines 376-385): advance on demand, then
compare elapsed against the expire interval.  Returns the C return value
together with the updated timer. -/
def stimer_is_expired (ots : Option stimer) (now : Nat) : Bool × Option stimer :=
  match ots with
  | none => (false, none)
  | some ts =>
    let ts2 := advance_and_checkpoint_2 ts now
    (timer_duration_ge ts2.elapsed ts2.expire_interval, some ts2)

/-- `stimer_restart_from_now` (stimer.c lines 388-394). -/
def stimer_restart_from_now (ots : Option stimer) (now : Nat) : Option stimer :=
  match ots with
  | none => none
  | some ts =>
    if ts.is_running then some (start_and_checkpoint_timer ts now) else some ts

/-- The elapsed-rewrite of `stimer_advance` (stimer.c lines 403-414): when
`elapsed ≥ expire_interval`, subtract one expire interval with a one-second
borrow when `elapsed.nanoseconds < expire_interval.nanoseconds`; otherwise
zero the elapsed duration. -/
def expire_consume (ts : stimer) : stimer_duration :=
  if timer_duration_ge ts.elapsed ts.expire_interval then
    let s := sub32 ts.elapsed.seconds ts.expire_interval.seconds
    if ts.expire_interval.nanoseconds ≤ ts.elapsed.nanoseconds then
      ⟨s, sub32 ts.elapsed.nanoseconds ts.expire_interval.nanoseconds⟩
    else
      ⟨sub32 s 1, add32 ts.elapsed.nanoseconds (sub32 1000000000 ts.expire_interval.nanoseconds)⟩
  else ⟨0, 0⟩

/-- `stimer_advance` (stimer.c lines 397-416). -/
def stimer_advance (ots : Option stimer) (now : Nat) : Option stimer :=
  match ots with
  | none => none
  | some ts =>
    if ts.is_running then
      let ts2 := advance_and_checkpoint_2 ts now
      some { ts2 with elapsed := expire_consume ts2 }
    else some ts

-- ---------------------------------------------------------------------------
-- Operation traces used to state the frozen-elapsed and latched-expiration
-- properties

/-- The observation/mutation calls that may hit a timer between a stop and
the next explicit start or expiration setter: context sweeps, elapsed
queries, expiration polls, redundant stops, periodic advances and
restarts, each with the raw counter value sampled during the call. -/
inductive TimerOp where
  | sweep (now : Nat)
  | getElapsed (now : Nat)
  | isExpiredQ (now : Nat)
  | stopT (now : Nat)
  | advanceP (now : Nat)
  | restartT (now : Nat)
deriving DecidableEq, Repr

/-- State effect of one `TimerOp` on a single timer (for `sweep`, the
per-timer effect of `stimer_execute_context` on a registered timer, whose
context back-pointer equals the sweeping context). -/
def applyTimerOp (ts : stimer) : TimerOp → stimer
  | .sweep now => advance_and_checkpoint_2 ts now
  | .getElapsed now => ((stimer_get_elapsed_time (some ts) now ⟨0, 0⟩).1).getD ts
  | .isExpiredQ now => ((stimer_is_expired (some ts) now).2).getD ts
  | .stopT now => (stimer_stop (some ts) now).getD ts
  | .advanceP now => (stimer_advance (some ts) now).getD ts
  | .restartT now => (stimer_restart_from_now (some ts) now).getD ts

/-- A sequence of timer operations applied in order. -/
def applyTimerOps (ts : stimer) (ops : List TimerOp) : stimer :=
  ops.foldl applyTimerOp ts

/-- The no-overflow side condition for one on-demand advance: the elapsed
seconds counter does not wrap, and the nanosecond advance the code would
compute for this sample stays within one second (the spec's
single-advance-per-second precondition). -/
def boundedStep (ts : stimer) (now : Nat) : Bool :=
  decide (ts.elapsed.seconds + 1 < u32) &&
  (match ts.ctx with
   | none => true
   | some c =>
     decide ((tm_get_diff c.modulus now ts.checkpoint).toNat * c.ns_per_count % u32 ≤ 1000000000))

/-- `boundedStep` holding along a whole sequence of expiration polls. -/
def boundedSweeps : stimer → List Nat → Bool
  | _, [] => true
  | ts, now :: rest => boundedStep ts now && boundedSweeps (advance_and_checkpoint_2 ts now) rest

/-- The booleans returned by successive `stimer_is_expired` calls at the
given raw counter samples, threading the timer state through. -/
def isExpiredResults : stimer → List Nat → List Bool
  | _, [] => []
  | ts, now :: rest =>
    (stimer_is_expired (some ts) now).1 :: isExpiredResults (advance_and_checkpoint_2 ts now) rest

-- ---------------------------------------------------------------------------
-- Helper lemmas

/-- `advance_and_checkpoint` only touches `elapsed` and `checkpoint`. -/
theorem advance_and_checkpoint_frame (ts : stimer) (m npc now : Nat) :
    (advance_and_checkpoint ts m npc now).ctx = ts.ctx
    ∧ (advance_and_checkpoint ts m npc now).expire_interval = ts.expire_interval
    ∧ (advance_and_checkpoint ts m npc now).is_running = ts.is_running := by
  unfold advance_and_checkpoint
  split
  · dsimp only
    split <;> exact ⟨rfl, rfl, rfl⟩
  · exact ⟨rfl, rfl, rfl⟩

/-- `advance_and_checkpoint_2` only touches `elapsed` and `checkpoint`. -/
theorem advance_and_checkpoint_2_frame (ts : stimer) (now : Nat) :
    (advance_and_checkpoint_2 ts now).ctx = ts.ctx
    ∧ (advance_and_checkpoint_2 ts now).expire_interval = ts.expire_interval
    ∧ (advance_and_checkpoint_2 ts now).is_running = ts.is_running := by
  unfold advance_and_checkpoint_2
  cases h : ts.ctx with
  | none => exact ⟨h, rfl, rfl⟩
  | some c =>
    refine ⟨?_, (advance_and_checkpoint_frame ts c.modulus c.ns_per_count now).2⟩
    exact ((advance_and_checkpoint_frame ts c.modulus c.ns_per_count now).1).trans h

/-- A stopped timer is untouched by `advance_and_checkpoint`. -/
theorem advance_and_checkpoint_not_running (ts : stimer) (m npc now : Nat)
    (h : ts.is_running = false) : advance_and_checkpoint ts m npc now = ts := by
  unfold advance_and_checkpoint
  simp [h]

/-- A stopped timer is untouched by `advance_and_checkpoint_2`. -/
theorem advance_and_checkpoint_2_not_running (ts : stimer) (now : Nat)
    (h : ts.is_running = false) : advance_and_checkpoint_2 ts now = ts := by
  unfold advance_and_checkpoint_2
  cases hc : ts.ctx with
  | none => rfl
  | some c => exact advance_and_checkpoint_not_running ts c.modulus c.ns_per_count now h

/-- A detached timer is untouched by `advance_and_checkpoint_2`. -/
theorem advance_and_checkpoint_2_detached (ts : stimer) (now : Nat)
    (h : ts.ctx = none) : advance_and_checkpoint_2 ts now = ts := by
  simp only [advance_and_checkpoint_2, h]

/-- The counter difference between a sample and itself is zero. -/
theorem tm_get_diff_self (m now : Nat) : tm_get_diff m now now = 0 := by
  unfold tm_get_diff
  simp

/-- The on-demand advance is idempotent at a fixed raw counter sample: the
second advance sees a zero counter difference (or an unchanged state) and
does nothing. -/
theorem advance_and_checkpoint_2_idem (ts : stimer) (now : Nat) :
    advance_and_checkpoint_2 (advance_and_checkpoint_2 ts now) now
      = advance_and_checkpoint_2 ts now := by
  unfold advance_and_checkpoint_2
  cases hc : ts.ctx with
  | none => simp only [hc]
  | some c =>
    have hctx := (advance_and_checkpoint_frame ts c.modulus c.ns_per_count now).1
    rw [hctx, hc]
    unfold advance_and_checkpoint
    by_cases hr : ts.is_running
    · simp only [hr, if_true]
      by_cases hd : (0 : Int) < tm_get_diff c.modulus now ts.checkpoint
      · simp only [hd, if_true]
        simp [tm_get_diff_self]
      · simp [hd, hr]
    · simp [hr]

/-- Unfolding of `timer_duration_ge` into arithmetic. -/
theorem timer_duration_ge_iff (d e : stimer_duration) :
    timer_duration_ge d e = true
      ↔ (e.seconds < d.seconds ∨ (d.seconds = e.seconds ∧ e.nanoseconds ≤ d.nanoseconds)) := by
  unfold timer_duration_ge
  split
  · simp_all
  · split <;> simp_all

/-- For normalized durations the lexicographic comparison agrees with the
numeric comparison of total nanosecond values. -/
theorem timer_duration_ge_toNs (d e : stimer_duration)
    (hd : d.nanoseconds < 1000000000) (he : e.nanoseconds < 1000000000) :
    timer_duration_ge d e = true ↔ toNs e ≤ toNs d := by
  rw [timer_duration_ge_iff]
  unfold toNs
  constructor <;> intro h <;> omega

/-- One duration advance, under the single-advance-per-second precondition
and with no wrap of the seconds field: the total value grows by exactly the
increment and the nanosecond field stays normalized. -/
theorem advance_timer_duration_exact (d : stimer_duration) (n : Nat)
    (hd : d.nanoseconds < 1000000000) (hn : n ≤ 1000000000) (hs : d.seconds + 1 < u32) :
    toNs (advance_timer_duration d n) = toNs d + n
    ∧ (advance_timer_duration d n).nanoseconds < 1000000000 := by
  rcases d with ⟨ds, dn⟩
  simp only [advance_timer_duration, sub32, add32, u32, toNs] at *
  split <;> simp only [] <;> constructor <;> omega

/-- One duration advance with wrapping seconds: the nanosecond field stays
normalized, the seconds field stays a `uint32_t` value, and the total value
tracks the increment modulo `2 ^ 32` seconds. -/
theorem advance_timer_duration_step (d : stimer_duration) (n : Nat)
    (hd : d.nanoseconds < 1000000000) (hs : d.seconds < u32) (hn : n ≤ 1000000000) :
    (advance_timer_duration d n).nanoseconds < 1000000000
    ∧ (advance_timer_duration d n).seconds < u32
    ∧ toNs (advance_timer_duration d n) % (u32 * 1000000000)
        = (toNs d + n) % (u32 * 1000000000) := by
  rcases d with ⟨ds, dn⟩
  simp only [advance_timer_duration, sub32, add32, u32, toNs] at *
  split <;> simp only [] <;> refine ⟨by omega, by omega, ?_⟩ <;> omega

-- ---------------------------------------------------------------------------
-- Claim theorems

/-- C9: passing an absent (NULL) Context or Timer reference to any public
operation is a no-op on all state or returns a zeroed/default result:
`stimer_is_expired` reports `false`, `stimer_execute_context` and
`stimer_free_context` change nothing, `stimer_alloc` fails, the other timer
operations leave everything untouched (including the out-parameter of
`stimer_get_elapsed_time` and the context state passed to `stimer_free`),
and a NULL duration makes `stimer_expire_from_now` a no-op. -/
theorem null_reference_noops (now : Nat) (t0 t : stimer_duration) (s ms us n : Nat)
    (ts : stimer) (ost : Option stimer_ctx_state) :
    stimer_start none now = none
    ∧ stimer_stop none now = none
    ∧ stimer_get_elapsed_time none now t0 = (none, t0)
    ∧ stimer_expire_from_now none (some t) now = none
    ∧ stimer_expire_from_now (some ts) none now = some ts
    ∧ stimer_expire_from_now_s none s now = none
    ∧ stimer_expire_from_now_ms none ms now = none
    ∧ stimer_expire_from_now_us none us now = none
    ∧ stimer_expire_from_now_ns none n now = none
    ∧ stimer_is_expired none now = (false, none)
    ∧ stimer_restart_from_now none now = none
    ∧ stimer_advance none now = none
    ∧ stimer_execute_context none now = none
    ∧ stimer_free_context none = []
    ∧ stimer_alloc none = (none, none)
    ∧ stimer_free none ost = ost :=
  ⟨rfl, rfl, rfl, rfl, rfl, rfl, rfl, rfl, rfl, rfl, rfl, rfl, rfl, rfl, rfl, rfl⟩

/-- C10: a freshly allocated timer (elapsed zero, expire interval zero,
stopped) reports expired: `stimer_is_expired` compares `0 ≥ 0` and does not
require the timer to be running. -/
theorem fresh_timer_is_expired (st : stimer_ctx_state) (now : Nat) :
    (stimer_is_expired (stimer_alloc (some st)).1 now).1 = true := by
  simp only [stimer_alloc, stimer_is_expired]
  rw [advance_and_checkpoint_2_not_running _ _ rfl]
  rfl

/-- C7: on a timer attached to a valid context, `stimer_start` sets the
running flag, zeroes elapsed and checkpoints to the current raw sample, even
if the timer was already running (a reset, not a resume); each expiration
setter performs the same reset-and-checkpoint and additionally records the
(converted) interval as the expire target. -/
theorem start_and_setters_reset (ts : stimer) (c : stimer_ctx) (now s ms us n : Nat)
    (t : stimer_duration) (hctx : ts.ctx = some c) :
    stimer_start (some ts) now
      = some { ts with checkpoint := now, is_running := true, elapsed := ⟨0, 0⟩ }
    ∧ stimer_expire_from_now (some ts) (some t) now
      = some (⟨ts.ctx, now, t, ⟨0, 0⟩, true⟩ : stimer)
    ∧ stimer_expire_from_now_s (some ts) s now
      = some (⟨ts.ctx, now, ⟨s, 0⟩, ⟨0, 0⟩, true⟩ : stimer)
    ∧ stimer_expire_from_now_ms (some ts) ms now
      = some (⟨ts.ctx, now, ⟨ms / 1000, ms % 1000 * 1000000⟩, ⟨0, 0⟩, true⟩ : stimer)
    ∧ stimer_expire_from_now_us (some ts) us now
      = some (⟨ts.ctx, now, ⟨us / 1000000, us % 1000000 * 1000⟩, ⟨0, 0⟩, true⟩ : stimer)
    ∧ stimer_expire_from_now_ns (some ts) n now
      = some (⟨ts.ctx, now, ⟨n / 1000000000, n % 1000000000⟩, ⟨0, 0⟩, true⟩ : stimer) := by
  refine ⟨?_, ?_, ?_, ?_, ?_, ?_⟩ <;>
    simp [stimer_start, stimer_expire_from_now, stimer_expire_from_now_s,
      stimer_expire_from_now_ms, stimer_expire_from_now_us, stimer_expire_from_now_ns,
      start_and_checkpoint_timer, hctx]

/-- C7 witness: applying the reset at a concrete attached running timer. -/
theorem start_and_setters_reset_witness :
    stimer_start (some ⟨some ⟨255, 1000000⟩, 7, ⟨1, 0⟩, ⟨2, 3⟩, true⟩) 9
      = some ⟨some ⟨255, 1000000⟩, 9, ⟨1, 0⟩, ⟨0, 0⟩, true⟩
    ∧ stimer_expire_from_now_ms (some ⟨some ⟨255, 1000000⟩, 7, ⟨1, 0⟩, ⟨2, 3⟩, true⟩) 2500 9
      = some ⟨some ⟨255, 1000000⟩, 9, ⟨2, 500000000⟩, ⟨0, 0⟩, true⟩ :=
  ⟨(start_and_setters_reset ⟨some ⟨255, 1000000⟩, 7, ⟨1, 0⟩, ⟨2, 3⟩, true⟩ ⟨255, 1000000⟩
      9 0 2500 0 0 ⟨0, 0⟩ rfl).1,
   (start_and_setters_reset ⟨some ⟨255, 1000000⟩, 7, ⟨1, 0⟩, ⟨2, 3⟩, true⟩ ⟨255, 1000000⟩
      9 0 2500 0 0 ⟨0, 0⟩ rfl).2.2.2.1⟩

/-- C8: every expiration-interval setter stores a normalized
`{seconds, nanoseconds}` interval (`nanoseconds < 1_000_000_000`) whose total
value is exactly the requested amount of time; the canonical-`Duration` form
stores the caller's duration, normalized provided the input is canonical. -/
theorem expire_setters_normalized (ts : stimer) (now s ms us n : Nat)
    (t : stimer_duration) (ht : t.nanoseconds < 1000000000) :
    (∃ r, stimer_expire_from_now_s (some ts) s now = some r
       ∧ r.expire_interval = ⟨s, 0⟩
       ∧ r.expire_interval.nanoseconds < 1000000000
       ∧ toNs r.expire_interval = s * 1000000000)
    ∧ (∃ r, stimer_expire_from_now_ms (some ts) ms now = some r
       ∧ r.expire_interval = ⟨ms / 1000, ms % 1000 * 1000000⟩
       ∧ r.expire_interval.nanoseconds < 1000000000
       ∧ toNs r.expire_interval = ms * 1000000)
    ∧ (∃ r, stimer_expire_from_now_us (some ts) us now = some r
       ∧ r.expire_interval = ⟨us / 1000000, us % 1000000 * 1000⟩
       ∧ r.expire_interval.nanoseconds < 1000000000
       ∧ toNs r.expire_interval = us * 1000)
    ∧ (∃ r, stimer_expire_from_now_ns (some ts) n now = some r
       ∧ r.expire_interval = ⟨n / 1000000000, n % 1000000000⟩
       ∧ r.expire_interval.nanoseconds < 1000000000
       ∧ toNs r.expire_interval = n)
    ∧ (∃ r, stimer_expire_from_now (some ts) (some t) now = some r
       ∧ r.expire_interval = t
       ∧ r.expire_interval.nanoseconds < 1000000000
       ∧ toNs r.expire_interval = toNs t) := by
  refine ⟨⟨_, rfl, rfl, ?_, ?_⟩, ⟨_, rfl, rfl, ?_, ?_⟩, ⟨_, rfl, rfl, ?_, ?_⟩,
    ⟨_, rfl, rfl, ?_, ?_⟩, ⟨_, rfl, rfl, ht, rfl⟩⟩ <;> simp only [toNs] <;> omega

/-- C8 witness: the millisecond setter at `ms = 2500` on a concrete timer
stores the normalized interval `{2 s, 500_000_000 ns}` worth exactly
2_500_000_000 ns. -/
theorem expire_setters_normalized_witness :
    ∃ r, stimer_expire_from_now_ms (some ⟨none, 0, ⟨0, 0⟩, ⟨0, 0⟩, false⟩) 2500 0 = some r
       ∧ r.expire_interval = ⟨2500 / 1000, 2500 % 1000 * 1000000⟩
       ∧ r.expire_interval.nanoseconds < 1000000000
       ∧ toNs r.expire_interval = 2500 * 1000000 :=
  (expire_setters_normalized ⟨none, 0, ⟨0, 0⟩, ⟨0, 0⟩, false⟩ 0 1 2500 3 4 ⟨1, 5⟩
    (by decide)).2.1

/-- C1 counterexample: a running attached timer with elapsed `{0 s, 5 ns}`
and expire interval `{1 s, 0 ns}` is not expired after the on-demand
advance-and-checkpoint (which is a no-op at an unchanged raw sample), yet
`stimer_advance` is not a pure advance: it zeroes the elapsed duration
(stimer.c lines 411-414), contradicting the claim. -/
theorem stimer_advance_pure_advance_cex :
    (⟨some ⟨255, 1000000⟩, 0, ⟨1, 0⟩, ⟨0, 5⟩, true⟩ : stimer).is_running = true
    ∧ timer_duration_ge
        (advance_and_checkpoint_2 ⟨some ⟨255, 1000000⟩, 0, ⟨1, 0⟩, ⟨0, 5⟩, true⟩ 0).elapsed
        (advance_and_checkpoint_2 ⟨some ⟨255, 1000000⟩, 0, ⟨1, 0⟩, ⟨0, 5⟩, true⟩ 0).expire_interval
      = false
    ∧ stimer_advance (some ⟨some ⟨255, 1000000⟩, 0, ⟨1, 0⟩, ⟨0, 5⟩, true⟩) 0
      ≠ some (advance_and_checkpoint_2 ⟨some ⟨255, 1000000⟩, 0, ⟨1, 0⟩, ⟨0, 5⟩, true⟩ 0)
    ∧ stimer_advance (some ⟨some ⟨255, 1000000⟩, 0, ⟨1, 0⟩, ⟨0, 5⟩, true⟩) 0
      = some ⟨some ⟨255, 1000000⟩, 0, ⟨1, 0⟩, ⟨0, 0⟩, true⟩ := by
  decide

/-- C1 (amended): on a running timer whose elapsed duration after the
on-demand advance-and-checkpoint is strictly below the expire interval,
`stimer_advance` performs the advance and then zeroes the elapsed duration;
it has no other effect. -/
theorem stimer_advance_not_expired_zeroes (ts : stimer) (now : Nat)
    (hrun : ts.is_running = true)
    (hge : timer_duration_ge (advance_and_checkpoint_2 ts now).elapsed
             (advance_and_checkpoint_2 ts now).expire_interval = false) :
    stimer_advance (some ts) now
      = some { advance_and_checkpoint_2 ts now with elapsed := ⟨0, 0⟩ } := by
  simp only [stimer_advance, hrun, if_true, expire_consume, hge, Bool.false_eq_true,
    if_false]

/-- C1 witness: the zeroing behaviour at a concrete not-expired running
timer. -/
theorem stimer_advance_not_expired_zeroes_witness :
    stimer_advance (some ⟨some ⟨255, 1000000⟩, 0, ⟨2, 0⟩, ⟨1, 7⟩, true⟩) 0
      = some { advance_and_checkpoint_2 ⟨some ⟨255, 1000000⟩, 0, ⟨2, 0⟩, ⟨1, 7⟩, true⟩ 0 with
               elapsed := ⟨0, 0⟩ } :=
  stimer_advance_not_expired_zeroes ⟨some ⟨255, 1000000⟩, 0, ⟨2, 0⟩, ⟨1, 7⟩, true⟩ 0
    (by decide) (by decide)

/-- C4 counterexample: on a detached timer (context back-reference absent)
the expiration setters are not no-ops — `stimer_expire_from_now_s` skips the
start-and-checkpoint (its context guard fails) but still overwrites the
expire interval; likewise `stimer_advance` on a detached running expired
timer still rewrites elapsed.  Both contradict the claim that every mutation
leaves the timer's state unchanged. -/
theorem detached_timer_noop_cex :
    (⟨none, 0, ⟨0, 0⟩, ⟨0, 0⟩, false⟩ : stimer).ctx = none
    ∧ stimer_expire_from_now_s (some ⟨none, 0, ⟨0, 0⟩, ⟨0, 0⟩, false⟩) 5 0
      ≠ some ⟨none, 0, ⟨0, 0⟩, ⟨0, 0⟩, false⟩
    ∧ stimer_expire_from_now_s (some ⟨none, 0, ⟨0, 0⟩, ⟨0, 0⟩, false⟩) 5 0
      = some ⟨none, 0, ⟨5, 0⟩, ⟨0, 0⟩, false⟩
    ∧ stimer_advance (some ⟨none, 0, ⟨1, 0⟩, ⟨3, 0⟩, true⟩) 0
      = some ⟨none, 0, ⟨1, 0⟩, ⟨2, 0⟩, true⟩ := by
  decide

/-- C4 (amended): a detached timer never advances — elapsed/expire queries
return the last known state unchanged, and `stimer_start`, `stimer_stop` and
`stimer_restart_from_now` are no-ops — but `stimer_advance` on a running
detached timer still applies its subtract-or-zero rewrite to the stored
elapsed duration, and the expiration setters still overwrite the expire
interval (without starting the timer or moving its checkpoint). -/
theorem detached_timer_behavior (ts : stimer) (now s ms us n : Nat)
    (t0 t : stimer_duration) (h : ts.ctx = none) :
    stimer_get_elapsed_time (some ts) now t0 = (some ts, ts.elapsed)
    ∧ stimer_is_expired (some ts) now
      = (timer_duration_ge ts.elapsed ts.expire_interval, some ts)
    ∧ stimer_start (some ts) now = some ts
    ∧ stimer_stop (some ts) now = some ts
    ∧ stimer_restart_from_now (some ts) now = some ts
    ∧ stimer_advance (some ts) now
      = some (if ts.is_running then { ts with elapsed := expire_consume ts } else ts)
    ∧ stimer_expire_from_now (some ts) (some t) now = some { ts with expire_interval := t }
    ∧ stimer_expire_from_now_s (some ts) s now = some { ts with expire_interval := ⟨s, 0⟩ }
    ∧ stimer_expire_from_now_ms (some ts) ms now
      = some { ts with expire_interval := ⟨ms / 1000, ms % 1000 * 1000000⟩ }
    ∧ stimer_expire_from_now_us (some ts) us now
      = some { ts with expire_interval := ⟨us / 1000000, us % 1000000 * 1000⟩ }
    ∧ stimer_expire_from_now_ns (some ts) n now
      = some { ts with expire_interval := ⟨n / 1000000000, n % 1000000000⟩ } := by
  have h2 := advance_and_checkpoint_2_detached ts now h
  refine ⟨?_, ?_, ?_, ?_, ?_, ?_, ?_, ?_, ?_, ?_, ?_⟩ <;>
    simp [stimer_get_elapsed_time, stimer_is_expired, stimer_start, stimer_stop,
      stimer_restart_from_now, stimer_advance, stimer_expire_from_now,
      stimer_expire_from_now_s, stimer_expire_from_now_ms, stimer_expire_from_now_us,
      stimer_expire_from_now_ns, start_and_checkpoint_timer, h, h2]
  split <;> rfl

/-- C4 witness: the detached-timer behaviour at a concrete detached stopped
timer. -/
theorem detached_timer_behavior_witness :
    stimer_get_elapsed_time (some ⟨none, 3, ⟨1, 2⟩, ⟨4, 5⟩, false⟩) 9 ⟨7, 8⟩
      = (some ⟨none, 3, ⟨1, 2⟩, ⟨4, 5⟩, false⟩, (⟨4, 5⟩ : stimer_duration))
    ∧ stimer_is_expired (some ⟨none, 3, ⟨1, 2⟩, ⟨4, 5⟩, false⟩) 9
      = (timer_duration_ge ⟨4, 5⟩ ⟨1, 2⟩, some ⟨none, 3, ⟨1, 2⟩, ⟨4, 5⟩, false⟩)
    ∧ stimer_start (some ⟨none, 3, ⟨1, 2⟩, ⟨4, 5⟩, false⟩) 9
      = some ⟨none, 3, ⟨1, 2⟩, ⟨4, 5⟩, false⟩ :=
  ⟨(detached_timer_behavior ⟨none, 3, ⟨1, 2⟩, ⟨4, 5⟩, false⟩ 9 0 0 0 0 ⟨7, 8⟩ ⟨0, 0⟩ rfl).1,
   (detached_timer_behavior ⟨none, 3, ⟨1, 2⟩, ⟨4, 5⟩, false⟩ 9 0 0 0 0 ⟨7, 8⟩ ⟨0, 0⟩ rfl).2.1,
   (detached_timer_behavior ⟨none, 3, ⟨1, 2⟩, ⟨4, 5⟩, false⟩ 9 0 0 0 0 ⟨7, 8⟩ ⟨0, 0⟩ rfl).2.2.1⟩

/-- C3 counterexample: a single `advance_timer_duration` call with the
unsigned 32-bit increment 3_000_000_000 ns (more than one second) leaves the
nanoseconds field at 2_000_000_000, outside `[0, 1_000_000_000)` — the
claimed invariant fails for arbitrary 32-bit increments. -/
theorem advance_timer_duration_invariant_cex :
    3000000000 < u32
    ∧ ¬ (advance_timer_duration ⟨0, 0⟩ 3000000000).nanoseconds < 1000000000
    ∧ advance_timer_duration ⟨0, 0⟩ 3000000000 = ⟨1, 2000000000⟩ := by
  decide

/-- C3 (amended): starting from any normalized duration, for every sequence
of advance calls whose increments each stay within one second (at most
1_000_000_000 ns, the design's single-advance-per-second precondition), the
nanoseconds field stays in `[0, 1_000_000_000)`, the seconds field stays a
`uint32_t` value, and the represented total time equals the exact sum of the
increments modulo `2 ^ 32` seconds. -/
theorem advance_timer_duration_bounded_invariant (d0 : stimer_duration) (l : List Nat)
    (h0 : d0.nanoseconds < 1000000000) (hs0 : d0.seconds < u32)
    (hl : ∀ x ∈ l, x ≤ 1000000000) :
    (l.foldl advance_timer_duration d0).nanoseconds < 1000000000
    ∧ (l.foldl advance_timer_duration d0).seconds < u32
    ∧ toNs (l.foldl advance_timer_duration d0) % (u32 * 1000000000)
        = (toNs d0 + l.sum) % (u32 * 1000000000) := by
  induction l generalizing d0 with
  | nil => exact ⟨h0, hs0, by simp⟩
  | cons x xs ih =>
    have hx : x ≤ 1000000000 := hl x (List.mem_cons_self x xs)
    have hstep := advance_timer_duration_step d0 x h0 hs0 hx
    have hrest := ih (advance_timer_duration d0 x) hstep.1 hstep.2.1
      (fun y hy => hl y (List.mem_cons_of_mem x hy))
    refine ⟨hrest.1, hrest.2.1, ?_⟩
    calc toNs (xs.foldl advance_timer_duration (advance_timer_duration d0 x))
          % (u32 * 1000000000)
        = (toNs (advance_timer_duration d0 x) + xs.sum) % (u32 * 1000000000) := hrest.2.2
      _ = (toNs (advance_timer_duration d0 x) % (u32 * 1000000000) + xs.sum)
            % (u32 * 1000000000) := by rw [Nat.mod_add_mod]
      _ = ((toNs d0 + x) % (u32 * 1000000000) + xs.sum) % (u32 * 1000000000) := by
            rw [hstep.2.2]
      _ = (toNs d0 + (x :: xs).sum) % (u32 * 1000000000) := by
            rw [Nat.mod_add_mod, List.sum_cons]; ring_nf
  
/-- C3 witness: two one-second-bounded advances from a concrete duration
keep nanoseconds normalized and track the exact sum. -/
theorem advance_timer_duration_bounded_invariant_witness :
    ([600000000, 600000000].foldl advance_timer_duration ⟨0, 0⟩).nanoseconds < 1000000000
    ∧ ([600000000, 600000000].foldl advance_timer_duration ⟨0, 0⟩).seconds < u32
    ∧ toNs ([600000000, 600000000].foldl advance_timer_duration ⟨0, 0⟩) % (u32 * 1000000000)
        = (toNs ⟨0, 0⟩ + [600000000, 600000000].sum) % (u32 * 1000000000) :=
  advance_timer_duration_bounded_invariant ⟨0, 0⟩ [600000000, 600000000]
    (by decide) (by decide) (by decide)

/-- The expired branch of `stimer_advance`'s elapsed rewrite performs an
exact subtraction of one expire interval (with the one-second borrow) on
normalized `uint32_t` durations. -/
theorem expire_consume_subtract (t : stimer)
    (hge : timer_duration_ge t.elapsed t.expire_interval = true)
    (hne : t.elapsed.nanoseconds < 1000000000)
    (hnx : t.expire_interval.nanoseconds < 1000000000)
    (hse : t.elapsed.seconds < u32)
    (hsx : t.expire_interval.seconds < u32) :
    (expire_consume t).nanoseconds < 1000000000
    ∧ toNs (expire_consume t) + toNs t.expire_interval = toNs t.elapsed := by
  have hof := (timer_duration_ge_iff t.elapsed t.expire_interval).1 hge
  simp only [expire_consume, hge, if_true]
  split <;>
    simp only [sub32, add32, u32, toNs] at * <;>
    constructor <;> omega

/-- C2: on a running timer that is expired after the on-demand
advance-and-checkpoint (elapsed ≥ expire interval, both durations
normalized), `stimer_advance` replaces elapsed by elapsed minus exactly one
expire interval — borrowing a second into nanoseconds when needed — so the
overshoot is preserved rather than zeroed. -/
theorem stimer_advance_expired_subtracts_interval (ts : stimer) (now : Nat)
    (hrun : ts.is_running = true)
    (hge : timer_duration_ge (advance_and_checkpoint_2 ts now).elapsed
             (advance_and_checkpoint_2 ts now).expire_interval = true)
    (hne : (advance_and_checkpoint_2 ts now).elapsed.nanoseconds < 1000000000)
    (hnx : (advance_and_checkpoint_2 ts now).expire_interval.nanoseconds < 1000000000)
    (hse : (advance_and_checkpoint_2 ts now).elapsed.seconds < u32)
    (hsx : (advance_and_checkpoint_2 ts now).expire_interval.seconds < u32) :
    ∃ d : stimer_duration,
      stimer_advance (some ts) now
        = some { advance_and_checkpoint_2 ts now with elapsed := d }
      ∧ d.nanoseconds < 1000000000
      ∧ toNs d + toNs (advance_and_checkpoint_2 ts now).expire_interval
          = toNs (advance_and_checkpoint_2 ts now).elapsed := by
  have hsub := expire_consume_subtract (advance_and_checkpoint_2 ts now) hge hne hnx hse hsx
  exact ⟨expire_consume (advance_and_checkpoint_2 ts now),
    by simp only [stimer_advance, hrun, if_true], hsub.1, hsub.2⟩

/-- C2 witness: the borrow case at a concrete expired running timer with
elapsed `{3 s, 200 ns}` and expire interval `{1 s, 500 ns}`. -/
theorem stimer_advance_expired_subtracts_interval_witness :
    ∃ d : stimer_duration,
      stimer_advance (some ⟨some ⟨255, 1000000⟩, 0, ⟨1, 500⟩, ⟨3, 200⟩, true⟩) 0
        = some { advance_and_checkpoint_2 ⟨some ⟨255, 1000000⟩, 0, ⟨1, 500⟩, ⟨3, 200⟩, true⟩ 0 with
                 elapsed := d }
      ∧ d.nanoseconds < 1000000000
      ∧ toNs d
          + toNs (advance_and_checkpoint_2 ⟨some ⟨255, 1000000⟩, 0, ⟨1, 500⟩, ⟨3, 200⟩, true⟩ 0).expire_interval
          = toNs (advance_and_checkpoint_2 ⟨some ⟨255, 1000000⟩, 0, ⟨1, 500⟩, ⟨3, 200⟩, true⟩ 0).elapsed :=
  stimer_advance_expired_subtracts_interval ⟨some ⟨255, 1000000⟩, 0, ⟨1, 500⟩, ⟨3, 200⟩, true⟩ 0
    (by decide) (by decide) (by decide) (by decide) (by decide) (by decide)

/-- On a stopped timer, an elapsed query neither advances nor mutates: it
returns the stored elapsed duration. -/
theorem stimer_get_elapsed_time_stopped (ts : stimer) (now : Nat) (t0 : stimer_duration)
    (h : ts.is_running = false) :
    stimer_get_elapsed_time (some ts) now t0 = (some ts, ts.elapsed) := by
  cases hc : ts.ctx with
  | none => simp [stimer_get_elapsed_time, hc]
  | some c => simp [stimer_get_elapsed_time, hc, h]

/-- Every query/sweep/stop/advance/restart operation leaves a stopped timer
completely unchanged. -/
theorem applyTimerOp_stopped (ts : stimer) (op : TimerOp) (h : ts.is_running = false) :
    applyTimerOp ts op = ts := by
  cases op with
  | sweep now => exact advance_and_checkpoint_2_not_running ts now h
  | getElapsed now => simp [applyTimerOp, stimer_get_elapsed_time_stopped ts now ⟨0, 0⟩ h]
  | isExpiredQ now =>
    simp [applyTimerOp, stimer_is_expired, advance_and_checkpoint_2_not_running ts now h]
  | stopT now =>
    cases hc : ts.ctx with
    | none => simp [applyTimerOp, stimer_stop, hc]
    | some c => simp [applyTimerOp, stimer_stop, hc, h]
  | advanceP now => simp [applyTimerOp, stimer_advance, h]
  | restartT now => simp [applyTimerOp, stimer_restart_from_now, h]

/-- A whole sequence of such operations leaves a stopped timer unchanged. -/
theorem applyTimerOps_stopped (ts : stimer) (ops : List TimerOp) (h : ts.is_running = false) :
    applyTimerOps ts ops = ts := by
  induction ops with
  | nil => rfl
  | cons op rest ih =>
    show applyTimerOps (applyTimerOp ts op) rest = ts
    rw [applyTimerOp_stopped ts op h, ih]

/-- C5: once the running flag is cleared, any sequence of context sweeps,
elapsed queries, expiration polls, redundant stops, periodic advances and
restarts — at arbitrary raw counter samples — leaves the timer unchanged,
and every subsequent `stimer_get_elapsed_time` returns exactly the elapsed
duration recorded at stop time, until an explicit start or expiration setter
intervenes. -/
theorem stopped_timer_elapsed_frozen (ts : stimer) (ops : List TimerOp) (now : Nat)
    (t0 : stimer_duration) (h : ts.is_running = false) :
    applyTimerOps ts ops = ts
    ∧ stimer_get_elapsed_time (some (applyTimerOps ts ops)) now t0 = (some ts, ts.elapsed) := by
  have hfix := applyTimerOps_stopped ts ops h
  refine ⟨hfix, ?_⟩
  rw [hfix]
  exact stimer_get_elapsed_time_stopped ts now t0 h

/-- C5 witness: a concrete stopped timer is unchanged by a sweep, an
expiration poll and a periodic advance, and still reports its frozen elapsed
duration. -/
theorem stopped_timer_elapsed_frozen_witness :
    applyTimerOps ⟨some ⟨255, 1000000⟩, 2, ⟨1, 0⟩, ⟨1, 1000000⟩, false⟩
        [TimerOp.sweep 50, TimerOp.isExpiredQ 60, TimerOp.advanceP 70]
      = ⟨some ⟨255, 1000000⟩, 2, ⟨1, 0⟩, ⟨1, 1000000⟩, false⟩
    ∧ stimer_get_elapsed_time
        (some (applyTimerOps ⟨some ⟨255, 1000000⟩, 2, ⟨1, 0⟩, ⟨1, 1000000⟩, false⟩
          [TimerOp.sweep 50, TimerOp.isExpiredQ 60, TimerOp.advanceP 70])) 80 ⟨0, 0⟩
      = (some ⟨some ⟨255, 1000000⟩, 2, ⟨1, 0⟩, ⟨1, 1000000⟩, false⟩,
         (⟨1, 1000000⟩ : stimer_duration)) :=
  stopped_timer_elapsed_frozen ⟨some ⟨255, 1000000⟩, 2, ⟨1, 0⟩, ⟨1, 1000000⟩, false⟩
    [TimerOp.sweep 50, TimerOp.isExpiredQ 60, TimerOp.advanceP 70] 80 ⟨0, 0⟩ rfl

/-- An on-demand advance whose nanosecond increment stays within one second
and whose seconds field does not wrap preserves elapsed normalization and
preserves `elapsed ≥ expire_interval`. -/
theorem advance_and_checkpoint_preserves_ge (ts : stimer) (m npc n : Nat)
    (h1 : ts.elapsed.nanoseconds < 1000000000)
    (h2 : ts.expire_interval.nanoseconds < 1000000000)
    (hsec : ts.elapsed.seconds + 1 < u32)
    (hna : (tm_get_diff m n ts.checkpoint).toNat * npc % u32 ≤ 1000000000)
    (hge : timer_duration_ge ts.elapsed ts.expire_interval = true) :
    (advance_and_checkpoint ts m npc n).elapsed.nanoseconds < 1000000000
    ∧ timer_duration_ge (advance_and_checkpoint ts m npc n).elapsed ts.expire_interval
        = true := by
  unfold advance_and_checkpoint
  split
  · dsimp only
    split
    · have hx := advance_timer_duration_exact ts.elapsed
        ((tm_get_diff m n ts.checkpoint).toNat * npc % u32) h1 hna hsec
      refine ⟨hx.2, ?_⟩
      rw [timer_duration_ge_toNs _ _ hx.2 h2, hx.1]
      have hold := (timer_duration_ge_toNs ts.elapsed ts.expire_interval h1 h2).1 hge
      omega
    · exact ⟨h1, hge⟩
  · exact ⟨h1, hge⟩

/-- One bounded expiration-poll step keeps the timer normalized and keeps it
expired. -/
theorem is_expired_step_preserves (ts : stimer) (n : Nat)
    (h1 : ts.elapsed.nanoseconds < 1000000000)
    (h2 : ts.expire_interval.nanoseconds < 1000000000)
    (hb : boundedStep ts n = true)
    (hge : timer_duration_ge ts.elapsed ts.expire_interval = true) :
    (advance_and_checkpoint_2 ts n).elapsed.nanoseconds < 1000000000
    ∧ (advance_and_checkpoint_2 ts n).expire_interval = ts.expire_interval
    ∧ timer_duration_ge (advance_and_checkpoint_2 ts n).elapsed
        (advance_and_checkpoint_2 ts n).expire_interval = true := by
  rw [boundedStep, Bool.and_eq_true] at hb
  have hsec : ts.elapsed.seconds + 1 < u32 := by
    have := hb.1
    simpa using this
  have hexp := (advance_and_checkpoint_2_frame ts n).2.1
  cases hc : ts.ctx with
  | none =>
    rw [advance_and_checkpoint_2_detached ts n hc]
    exact ⟨h1, rfl, hge⟩
  | some c =>
    have hna : (tm_get_diff c.modulus n ts.checkpoint).toNat * c.ns_per_count % u32
        ≤ 1000000000 := by
      have := hb.2
      rw [hc] at this
      simpa using this
    have hcore := advance_and_checkpoint_preserves_ge ts c.modulus c.ns_per_count n
      h1 h2 hsec hna hge
    have hunf : advance_and_checkpoint_2 ts n
        = advance_and_checkpoint ts c.modulus c.ns_per_count n := by
      unfold advance_and_checkpoint_2
      rw [hc]
    rw [hunf] at hexp ⊢
    exact ⟨hcore.1, hexp, by rw [hexp]; exact hcore.2⟩

/-- While every step stays bounded, an expired timer keeps reporting expired
on every successive `stimer_is_expired` poll. -/
theorem isExpiredResults_all_true (ts : stimer) (nows : List Nat)
    (h1 : ts.elapsed.nanoseconds < 1000000000)
    (h2 : ts.expire_interval.nanoseconds < 1000000000)
    (hge : timer_duration_ge ts.elapsed ts.expire_interval = true)
    (hb : boundedSweeps ts nows = true) :
    isExpiredResults ts nows = List.replicate nows.length true := by
  induction nows generalizing ts with
  | nil => rfl
  | cons n rest ih =>
    rw [boundedSweeps, Bool.and_eq_true] at hb
    have hstep := is_expired_step_preserves ts n h1 h2 hb.1 hge
    have hhead : (stimer_is_expired (some ts) n).1 = true := hstep.2.2
    have htail := ih (advance_and_checkpoint_2 ts n) hstep.1
      (by rw [hstep.2.1]; exact h2) hstep.2.2 hb.2
    rw [isExpiredResults, hhead, htail, List.length_cons, List.replicate]

/-- Polling `stimer_is_expired` twice at the same raw sample gives the same
answer and the same state: the first poll checkpoints at that sample, so the
second sees a zero counter difference. -/
theorem stimer_is_expired_idem (ts : stimer) (now : Nat) :
    stimer_is_expired (stimer_is_expired (some ts) now).2 now
      = stimer_is_expired (some ts) now := by
  simp only [stimer_is_expired]
  rw [advance_and_checkpoint_2_idem]

/-- C6 counterexample: with normalized durations and a legal configuration,
a timer whose elapsed seconds counter sits at the `uint32_t` maximum reports
expired, and the very next `stimer_is_expired` poll — with the counter
advanced by one tick worth one second and no reset in between — wraps
elapsed.seconds to 0 and reports not expired: "once true, stays true until
reset" fails as stated. -/
theorem is_expired_latched_cex :
    (stimer_is_expired
      (some ⟨some ⟨4294967295, 1000000000⟩, 0, ⟨4294967295, 0⟩, ⟨4294967295, 500000000⟩, true⟩)
      0).1 = true
    ∧ (stimer_is_expired
        ((stimer_is_expired
          (some ⟨some ⟨4294967295, 1000000000⟩, 0, ⟨4294967295, 0⟩, ⟨4294967295, 500000000⟩,
            true⟩) 0).2) 1).1 = false := by
  decide

/-- C6 (amended): (a) with no intervening advance of the raw counter a
repeated `stimer_is_expired` poll returns the same boolean and the same
state as the first; (b) provided no poll wraps the elapsed seconds counter
and each poll's nanosecond advance stays within one second (no `uint32_t`
overflow, the design's operating precondition), once a timer is expired
every later poll keeps returning true until a reset. -/
theorem is_expired_idempotent_latched (ts : stimer) (now : Nat) (nows : List Nat)
    (h1 : ts.elapsed.nanoseconds < 1000000000)
    (h2 : ts.expire_interval.nanoseconds < 1000000000)
    (hb : boundedSweeps ts nows = true)
    (hge : timer_duration_ge ts.elapsed ts.expire_interval = true) :
    stimer_is_expired (stimer_is_expired (some ts) now).2 now
      = stimer_is_expired (some ts) now
    ∧ isExpiredResults ts nows = List.replicate nows.length true :=
  ⟨stimer_is_expired_idem ts now, isExpiredResults_all_true ts nows h1 h2 hge hb⟩

/-- C6 witness: a concrete expired running timer polled twice at one sample
and then at two advancing samples keeps reporting expired. -/
theorem is_expired_idempotent_latched_witness :
    stimer_is_expired
        (stimer_is_expired (some ⟨some ⟨255, 1000000⟩, 0, ⟨0, 0⟩, ⟨0, 0⟩, true⟩) 5).2 5
      = stimer_is_expired (some ⟨some ⟨255, 1000000⟩, 0, ⟨0, 0⟩, ⟨0, 0⟩, true⟩) 5
    ∧ isExpiredResults ⟨some ⟨255, 1000000⟩, 0, ⟨0, 0⟩, ⟨0, 0⟩, true⟩ [1, 2]
      = List.replicate ([1, 2] : List Nat).length true :=
  is_expired_idempotent_latched ⟨some ⟨255, 1000000⟩, 0, ⟨0, 0⟩, ⟨0, 0⟩, true⟩ 5 [1, 2]
    (by decide) (by decide) (by decide) (by decide)
